import Mathlib

/-!
Verification of the dialogue engine of the ai-talking-agent repository.

The source consists of two Python files:
  agent.py — keyword-driven response generation (get_response), speech
    capture (listen) and synthesis (speak);
  main.py  — FastAPI web endpoints (/chat, /process, ...) and the Twilio
    telephony webhooks (/twilio/voice, /twilio/gather).

Python strings are modelled as List Char.  Machinery that can raise a
Python exception is modelled with Option / Except, where `none` / `.error`
stands for an exception escaping the function.
-/

/-! ## Character and string primitives -/

/-- Whitespace predicate matching the character class stripped and split
on by Python str.strip and str.split with no arguments. -/
def pySpace (c : Char) : Bool :=
  c == ' ' || c == '\t' || c == '\n' || c == '\r' || c == '\x0b' || c == '\x0c'

/-- ASCII lowercasing of one character, the action of Python str.lower on
the ASCII texts this program handles. -/
def lowerChar (c : Char) : Char :=
  match c with
  | 'A' => 'a' | 'B' => 'b' | 'C' => 'c' | 'D' => 'd' | 'E' => 'e'
  | 'F' => 'f' | 'G' => 'g' | 'H' => 'h' | 'I' => 'i' | 'J' => 'j'
  | 'K' => 'k' | 'L' => 'l' | 'M' => 'm' | 'N' => 'n' | 'O' => 'o'
  | 'P' => 'p' | 'Q' => 'q' | 'R' => 'r' | 'S' => 's' | 'T' => 't'
  | 'U' => 'u' | 'V' => 'v' | 'W' => 'w' | 'X' => 'x' | 'Y' => 'y'
  | 'Z' => 'z' | c => c

/-- Python str.lower over the whole string. -/
def lowerL (l : List Char) : List Char := l.map lowerChar

/-- Python str.lstrip (with no argument). -/
def lstrip (l : List Char) : List Char := l.dropWhile pySpace

/-- Python str.rstrip (with no argument). -/
def rstrip (l : List Char) : List Char := (l.reverse.dropWhile pySpace).reverse

/-- Python str.strip (with no argument). -/
def pstrip (l : List Char) : List Char := rstrip (lstrip l)

/-- Does the second list start with the first one?  Python str.startswith. -/
def listStartsWith : List Char → List Char → Bool
  | [], _ => true
  | _ :: _, [] => false
  | a :: as, b :: bs => a == b && listStartsWith as bs

/-- Does the second list end with the first one?  Python str.endswith. -/
def listEndsWith (p l : List Char) : Bool :=
  listStartsWith p.reverse l.reverse

/-- Substring containment: Python `p in l` on strings. -/
def isSub (p : List Char) : List Char → Bool
  | [] => p.isEmpty
  | c :: rest => listStartsWith p (c :: rest) || isSub p rest

/-- Accumulator-based splitting on whitespace runs; `acc` holds the
characters of the token currently being read, reversed. -/
def splitWSAux (acc : List Char) : List Char → List (List Char)
  | [] => if acc.isEmpty then [] else [acc.reverse]
  | c :: rest =>
    if pySpace c then
      if acc.isEmpty then splitWSAux [] rest else acc.reverse :: splitWSAux [] rest
    else splitWSAux (c :: acc) rest

/-- Python str.split with no arguments: split on whitespace runs,
discarding empty tokens. -/
def splitWS (l : List Char) : List (List Char) := splitWSAux [] l

/-- Abbreviation for String.toList, used to write concrete texts. -/
def toL (s : String) : List Char := s.toList

/-- The apostrophe character, kept out of string literals. -/
def apoc : Char := Char.ofNat 39

/-- Join the given fragments with an apostrophe between consecutive ones,
so that texts containing apostrophes can be written without the character
appearing in a literal. -/
def qj : List String → List Char
  | [] => []
  | [s] => s.toList
  | s :: rest => s.toList ++ apoc :: qj rest

/-! ## agent.py — response texts -/

/-- Fixed reply of get_response to empty or whitespace-only input. -/
def didntCatchMsg : List Char := qj ["I didn", "t catch that. Could you please repeat?"]

def greetingsList : List (List Char) :=
  [ toL "Hello! How can I help you today?"
  , toL "Hi there! What can I do for you?"
  , qj ["Hey! It", "s great to talk to you!"]
  , qj ["Greetings! How", "s your day going?"] ]

def identityMsg : List Char :=
  qj ["I", "m an AI talking agent designed to have conversations with you. I can listen, understand, and respond to your questions!"]

def wellbeingList : List (List Char) :=
  [ qj ["I", "m doing great! Thanks for asking. How about you?"]
  , qj ["I", "m feeling wonderful! Ready to help you with anything."]
  , qj ["Excellent! I", "m here and ready to assist you."] ]

def weatherMsg : List Char :=
  qj ["I can help with weather information. Please tell me which city you", "d like to know about."]

def jokesList : List (List Char) :=
  [ qj ["Why don", "t scientists trust atoms? Because they make up everything!"]
  , toL "What do you call a fake noodle? An impasta!"
  , toL "Why did the scarecrow win an award? He was outstanding in his field!"
  , toL "What did the ocean say to the beach? Nothing, it just waved!"
  , qj ["Why don", "t eggs tell jokes? They", "d crack each other up!"] ]

def helpMsg : List Char :=
  toL "I can help you with many things! You can ask me:\n- What time/date it is\n- For jokes or funny stories\n- General questions and conversations\n- About the weather\n- Anything you" ++ apoc :: toL "d like to talk about!"

def thanksList : List (List Char) :=
  [ qj ["You", "re welcome! Happy to help!"]
  , toL "My pleasure! Anything else you need?"
  , toL "No problem at all! Ask me anything!" ]

def goodbyeMsg : List Char :=
  toL "Goodbye! It was nice talking to you. Have a wonderful day!"

def lifeMsg : List Char :=
  qj ["The meaning of life is subjective - it", "s different for everyone! It could be happiness, helping others, learning, or pursuing your passions. What gives your life meaning?"]

def complimentMsg : List Char :=
  qj ["Thank you! I appreciate that. I", "m here to be helpful and have meaningful conversations with you."]

def whatWeatherMsg : List Char :=
  qj ["I don", "t have real-time weather data, but you can check your local weather service for accurate information."]

def whatThisMsg : List Char :=
  qj ["That", "s an interesting question! Could you tell me more about it?"]

def whatElseMsg : List Char :=
  qj ["That", "s a great question! I", "m curious to know more. Can you provide some context?"]

def howAreYouMsg : List Char :=
  qj ["I", "m doing well, thank you for asking! How are you doing?"]

def howDoMsg : List Char :=
  qj ["That", "s a practical question! I can help guide you through it if you give me more details."]

def howElseMsg : List Char :=
  qj ["That", "s an interesting question. Tell me more and I", "ll do my best to help!"]

def whyMsg : List Char :=
  qj ["That", "s a thought-provoking question! Different perspectives exist on this topic. What", "s your take on it?"]

def whenMsg : List Char :=
  qj ["Timing can be important! Could you provide more context about what you", "re asking?"]

def whereMsg : List Char :=
  toL "Location matters! Tell me more and I can try to help you figure it out."

def whoMsg : List Char :=
  qj ["That", "s an interesting question about people. I", "d love to help if you give me more details!"]

def yesNoList : List (List Char) :=
  [ qj ["That", "s an interesting question! I think it depends on the context. What do you think?"]
  , qj ["That", "s worth thinking about. It really varies from person to person."]
  , qj ["Great question! I", "m interested in your perspective on this."]
  , qj ["That", "s something many people wonder about. What", "s your opinion?"] ]

/-- The six fallback templates, the first of which embeds the first token
of the utterance (the Python f-string at the default branch). -/
def fallbackList (k : List Char) : List (List Char) :=
  [ qj ["That", "s interesting what you said about "] ++ k ++ toL "! Tell me more!"
  , toL "I find that topic fascinating! Can you elaborate?"
  , qj ["That", "s a great point! What made you think about this?"]
  , qj ["I", "d like to understand more about what you mean. Can you explain further?"]
  , toL "Interesting perspective! Tell me more about your thoughts on this."
  , toL "That sounds important to you. Why is this topic interesting to you?" ]

/-! ## agent.py — classification and response -/

/-- The closed intent set, one tag per branch of the get_response chain. -/
inductive Intent where
  | greeting | identity | time | date | wellbeing | weather | joke | help
  | thanks | farewell | lifeMeaning | compliment
  | questionWhat | questionHow | questionWhy | questionWhen
  | questionWhere | questionWho | genericQuestion | fallback
  deriving DecidableEq

/-- user_lower of get_response: the lowercased, stripped utterance. -/
def normText (u : List Char) : List Char := pstrip (lowerL u)

/-- Does any word of the list occur as a substring? Python
`any(word in user_lower for word in ws)`. -/
def anySub (ws : List String) (l : List Char) : Bool :=
  ws.any fun w => isSub (toL w) l

/-- First-match intent selection, one test per branch of the if/elif chain
of get_response, in source order. -/
def classify (u : List Char) : Intent :=
  if anySub ["hello", "hi", "hey", "greetings", "sup"] (normText u) then .greeting
  else if anySub ["who are you", "your name", "what are you", "what is your name"] (normText u) then .identity
  else if isSub (toL "time") (normText u) && !(isSub (toL "sometimes") (normText u)) then .time
  else if anySub ["date", "today", "what day"] (normText u) then .date
  else if isSub (toL "how are you") (normText u) || isSub (toL "how do you feel") (normText u) then .wellbeing
  else if isSub (toL "weather") (normText u) || isSub (toL "temperature") (normText u) then .weather
  else if isSub (toL "joke") (normText u) || isSub (toL "funny") (normText u) || isSub (toL "make me laugh") (normText u) then .joke
  else if isSub (toL "help") (normText u) || isSub (toL "what can you do") (normText u) || isSub (toL "capabilities") (normText u) then .help
  else if anySub ["thank", "thanks", "thankyou", "appreciate"] (normText u) then .thanks
  else if anySub ["bye", "goodbye", "quit", "exit", "see you", "farewell"] (normText u) then .farewell
  else if isSub (toL "meaning of life") (normText u) || (isSub (toL "life") (normText u) && isSub (toL "meaning") (normText u)) then .lifeMeaning
  else if anySub ["smart", "intelligent", "clever", "awesome", "great", "amazing"] (normText u) then .compliment
  else if listStartsWith (toL "what") (normText u) then .questionWhat
  else if listStartsWith (toL "how") (normText u) then .questionHow
  else if listStartsWith (toL "why") (normText u) then .questionWhy
  else if listStartsWith (toL "when") (normText u) then .questionWhen
  else if listStartsWith (toL "where") (normText u) then .questionWhere
  else if listStartsWith (toL "who") (normText u) then .questionWho
  else if listEndsWith (toL "?") (normText u) then .genericQuestion
  else .fallback

/-- random.choice over a template list, with the random draw supplied as
a natural number g. -/
def pick (g : Nat) (l : List (List Char)) : List Char :=
  l.getD (g % l.length) []

/-- get_response of agent.py.  g supplies the random draws, ts and ds the
wall-clock time and date strings (datetime.now formatted).  The result is
`none` exactly when the Python code would raise, which happens only if
the fallback branch indexes an empty token list. -/
def get_response (g : Nat) (ts ds : List Char) (u : List Char) : Option (List Char) :=
  if pstrip u = [] then some didntCatchMsg
  else
    match classify u with
    | .greeting => some (pick g greetingsList)
    | .identity => some identityMsg
    | .time => some (toL "The current time is " ++ ts ++ toL ".")
    | .date => some (toL "Today is " ++ ds ++ toL ".")
    | .wellbeing => some (pick g wellbeingList)
    | .weather => some weatherMsg
    | .joke => some (pick g jokesList)
    | .help => some helpMsg
    | .thanks => some (pick g thanksList)
    | .farewell => some goodbyeMsg
    | .lifeMeaning => some lifeMsg
    | .compliment => some complimentMsg
    | .questionWhat =>
      some (if isSub (toL "weather") (normText u) then whatWeatherMsg
        else if isSub (toL "this is") (normText u) || isSub (toL "that is") (normText u) then whatThisMsg
        else whatElseMsg)
    | .questionHow =>
      some (if isSub (toL "are you") (normText u) then howAreYouMsg
        else if isSub (toL "do") (normText u) || isSub (toL "does") (normText u) then howDoMsg
        else howElseMsg)
    | .questionWhy => some whyMsg
    | .questionWhen => some whenMsg
    | .questionWhere => some whereMsg
    | .questionWho => some whoMsg
    | .genericQuestion => some (pick g yesNoList)
    | .fallback =>
      match splitWS (normText u) with
      | [] => none
      | k :: _ => some (pick g (fallbackList k))

/-! ## agent.py — speech capture -/

/-- Outcome of the try block of listen: either recognition succeeded, or
one of the three handled speech_recognition errors occurred, or some
other exception was raised inside the block. -/
inductive ListenOutcome where
  | recognized (text : List Char)
  | waitTimeout
  | unknownValue
  | requestFailure (msg : List Char)
  | otherFailure (msg : List Char)

/-- A Python exception escaping a call. -/
inductive PyRuntimeError where
  | attributeError (msg : List Char)
  deriving DecidableEq

namespace AgentPy

/-- listen of agent.py as a function of the try-block outcome.  The three
speech_recognition handlers log and return None.  The generic handler
executes `logger.erro` — the source splits `logger.error(...)` across two
lines — so attribute lookup fails and an AttributeError escapes.  The
name lives in a namespace only because a Mathlib class exports another
listen. -/
def listen (o : ListenOutcome) : Except PyRuntimeError (Option (List Char)) :=
  match o with
  | .recognized t => .ok (some t)
  | .waitTimeout => .ok none
  | .unknownValue => .ok none
  | .requestFailure _ => .ok none
  | .otherFailure _ => .error (.attributeError (toL "Logger object has no attribute erro"))

end AgentPy

/-! ## main.py — web chat endpoints -/

/-- An HTTPException raised by an endpoint: status code and detail text. -/
structure HttpErrorE where
  code : Nat
  detail : List Char
  deriving DecidableEq

/-- The ChatResponse model of main.py. -/
structure ChatResponseE where
  user_input : List Char
  agent_reply : List Char
  status : List Char
  deriving DecidableEq

/-- Detail string of the empty-text rejection. -/
def emptyDetail : List Char := toL "Text cannot be empty"

/-- Default reply substituted when get_response returns a falsy value. -/
def cannedFallback : List Char := qj ["I couldn", "t generate a response"]

/-- The /process endpoint of main.py: reject empty text with HTTP 400,
otherwise answer with get_response; an exception from get_response is
re-raised as HTTP 500. -/
def process_input (g : Nat) (ts ds : List Char) (text : List Char) :
    Except HttpErrorE ChatResponseE :=
  if pstrip text = [] then .error ⟨400, emptyDetail⟩
  else
    match get_response g ts ds text with
    | some reply =>
      .ok ⟨text, (if reply = [] then cannedFallback else reply), toL "success"⟩
    | none => .error ⟨500, []⟩

/-- The /chat endpoint of main.py, a duplicate of /process. -/
def chat_endpoint (g : Nat) (ts ds : List Char) (text : List Char) :
    Except HttpErrorE ChatResponseE :=
  if pstrip text = [] then .error ⟨400, emptyDetail⟩
  else
    match get_response g ts ds text with
    | some reply =>
      .ok ⟨text, (if reply = [] then cannedFallback else reply), toL "success"⟩
    | none => .error ⟨500, []⟩

/-! ## main.py — Twilio call state -/

/-- One recorded exchange of a call: the user transcript and the agent
reply, the dict appended in the gather webhook. -/
abbrev Turn := List Char × List Char

/-- The call_conversations dict, keyed by CallSid. -/
abbrev CallStore := List Char → Option (List Turn)

/-- The conditional append of the gather webhook: if the CallSid is a key
of call_conversations, append the pair to its list, otherwise do nothing. -/
def storeAppend (s : CallStore) (sid : List Char) (t : Turn) : CallStore :=
  match s sid with
  | some l => fun c => if c = sid then some (l ++ [t]) else s c
  | none => s

/-- A TwiML instruction emitted by a webhook, in emission order. -/
inductive Instr where
  | say (msg : List Char)
  | gatherInput (action : List Char)
  | hangup
  | redirect (url : List Char)
  deriving DecidableEq

def gatherUrl : List Char := toL "/twilio/gather"

def voiceUrl : List Char := toL "/twilio/voice"

def greetMsg : List Char := toL "Hello! Welcome to XCER AI Agent. How can I help you today?"

def noHearMsg : List Char := qj ["I didn", "t hear anything. Please try again."]

def anythingElseMsg : List Char := toL "Is there anything else I can help with?"

def thankYouMsg : List Char := toL "Thank you for calling XCER AI. Goodbye!"

/-- The termination keyword list of the gather webhook. -/
def termKeywords : List String := ["bye", "goodbye", "quit", "exit", "hang up"]

/-- The goodbye check of the gather webhook:
`any(word in speech_result.lower() for word in [...])`.  Substring
containment on the lowercased (not stripped) transcript. -/
def terminatesB (t : List Char) : Bool :=
  termKeywords.any fun w => isSub (toL w) (lowerL t)

/-- The TwiML body of the voice webhook: greeting, gather, silence
re-prompt, redirect back to the voice webhook. -/
def voiceResponse : List Instr :=
  [.say greetMsg, .gatherInput gatherUrl, .say noHearMsg, .redirect voiceUrl]

/-- The branch of the gather webhook that builds the TwiML body, given
the AI reply already computed: terminating transcripts get farewell plus
hangup, others get the reply, a new gather, a silence re-prompt, and a
redirect to the voice (greeting) webhook. -/
def gatherInstrs (ai t : List Char) : List Instr :=
  if terminatesB t then [.say thankYouMsg, .hangup]
  else [.say ai, .gatherInput gatherUrl, .say anythingElseMsg, .redirect voiceUrl]

/-- twilio_voice_webhook of main.py: reset the conversation entry for the
CallSid to the empty list and emit the greeting TwiML. -/
def twilio_voice_webhook (store : CallStore) (sid : List Char) :
    CallStore × List Instr :=
  (fun c => if c = sid then some [] else store c, voiceResponse)

/-- twilio_gather_webhook of main.py: compute the AI reply, append the
(user, agent) pair when the CallSid is registered, then build the TwiML
body.  `none` stands for an exception escaping the handler (only possible
if get_response raised). -/
def twilio_gather_webhook (g : Nat) (ts ds : List Char) (store : CallStore)
    (sid speech : List Char) : Option (CallStore × List Instr) :=
  (get_response g ts ds speech).map fun ai =>
    (storeAppend store sid (speech, ai), gatherInstrs ai speech)

/-! ## Telephony execution model

Twilio executes a TwiML body top to bottom: a gather that captures speech
posts the transcript to its action URL (the gather webhook) and abandons
the rest of the body; if the caller stays silent, execution falls through
to the instructions after the gather, here a say followed by a redirect
back to the voice webhook; a hangup terminates the call, after which no
further webhook is invoked for that CallSid.  The events an external
caller can produce against a pending TwiML body are modelled below. -/

/-- An externally produced event on a live call: the caller spoke (with
the random draw and clock strings the handler will use), or stayed
silent through the gather window. -/
inductive Ev where
  | gathered (g : Nat) (ts ds : List Char) (text : List Char)
  | silence

def isGatherInstr : Instr → Bool
  | .gatherInput _ => true
  | _ => false

def isHangupInstr : Instr → Bool
  | .hangup => true
  | _ => false

def isRedirectVoiceInstr : Instr → Bool
  | .redirect u => u == voiceUrl
  | _ => false

/-- The pending body requests caller input. -/
def awaitingGather (r : List Instr) : Bool := r.any isGatherInstr

/-- The pending body terminates the call. -/
def endsCall (r : List Instr) : Bool := r.any isHangupInstr

/-- The pending body falls through to a redirect to the voice webhook. -/
def silenceRedirectsVoice (r : List Instr) : Bool := r.any isRedirectVoiceInstr

/-- One step of the per-call interaction: which TwiML body replaces the
pending one when the environment produces an event.  `none` means the
event cannot occur against this body (no gather to speak into, or no
redirect to fall through to) or the handler raised. -/
def stepResp (r : List Instr) : Ev → Option (List Instr)
  | .gathered g ts ds text =>
    if awaitingGather r then
      (get_response g ts ds text).map fun ai => gatherInstrs ai text
    else none
  | .silence =>
    if silenceRedirectsVoice r then some voiceResponse else none

/-- Run a sequence of events against a pending body; `none` as soon as an
event is impossible. -/
def runCall (r : List Instr) : List Ev → Option (List Instr)
  | [] => some r
  | e :: es =>
    match stepResp r e with
    | none => none
    | some next => runCall next es

/-! ## Lemmas about the string primitives -/

theorem listStartsWith_iff (p l : List Char) :
    listStartsWith p l = true ↔ ∃ t, l = p ++ t := by
  induction p generalizing l with
  | nil => simp [listStartsWith]
  | cons a as ih =>
    cases l with
    | nil =>
      simp [listStartsWith]
    | cons b bs =>
      rw [listStartsWith, Bool.and_eq_true, beq_iff_eq, ih]
      constructor
      · rintro ⟨rfl, t, rfl⟩
        exact ⟨t, rfl⟩
      · rintro ⟨t, ht⟩
        rw [List.cons_append] at ht
        injection ht with h1 h2
        exact ⟨h1.symm, t, h2⟩

theorem isSub_iff (p l : List Char) :
    isSub p l = true ↔ ∃ a b, l = a ++ (p ++ b) := by
  induction l with
  | nil =>
    simp only [isSub, List.isEmpty_iff]
    constructor
    · rintro rfl
      exact ⟨[], [], rfl⟩
    · rintro ⟨a, b, h⟩
      rcases List.append_eq_nil.mp h.symm with ⟨rfl, h2⟩
      rcases List.append_eq_nil.mp h2 with ⟨rfl, rfl⟩
      rfl
  | cons c rest ih =>
    rw [isSub, Bool.or_eq_true, listStartsWith_iff, ih]
    constructor
    · rintro (⟨t, ht⟩ | ⟨a, b, rfl⟩)
      · exact ⟨[], t, by simpa using ht⟩
      · exact ⟨c :: a, b, rfl⟩
    · rintro ⟨a, b, h⟩
      cases a with
      | nil =>
        exact Or.inl ⟨b, by simpa using h⟩
      | cons a0 a' =>
        rw [List.cons_append] at h
        obtain ⟨rfl, h2⟩ := List.cons.injEq .. ▸ h
        exact Or.inr ⟨a', b, h2⟩

theorem isSub_map (f : Char → Char) (p l : List Char) (h : isSub p l = true) :
    isSub (p.map f) (l.map f) = true := by
  rw [isSub_iff] at h ⊢
  obtain ⟨a, b, rfl⟩ := h
  exact ⟨a.map f, b.map f, by simp⟩

theorem isSub_reverse (p l : List Char) (h : isSub p l = true) :
    isSub p.reverse l.reverse = true := by
  rw [isSub_iff] at h ⊢
  obtain ⟨a, b, rfl⟩ := h
  exact ⟨b.reverse, a.reverse, by simp⟩

theorem isSub_lstrip (p l : List Char) (c0 : Char) (p' : List Char)
    (hp : p = c0 :: p') (hc0 : pySpace c0 = false) (h : isSub p l = true) :
    isSub p (lstrip l) = true := by
  induction l with
  | nil =>
    subst hp
    simp [isSub, List.isEmpty] at h
  | cons x xs ih =>
    by_cases hx : pySpace x
    · rw [lstrip, List.dropWhile_cons_of_pos hx]
      rw [isSub, Bool.or_eq_true] at h
      rcases h with h | h
      · subst hp
        rw [listStartsWith, Bool.and_eq_true, beq_iff_eq] at h
        rw [h.1] at hc0
        rw [hx] at hc0
        exact absurd hc0 (by simp)
      · exact ih h
    · rw [lstrip, List.dropWhile_cons_of_neg hx]
      exact h

theorem rstrip_prefix (l : List Char) : ∃ t, l = rstrip l ++ t := by
  obtain ⟨t, ht⟩ : ∃ t, t ++ l.reverse.dropWhile pySpace = l.reverse :=
    List.dropWhile_suffix pySpace
  refine ⟨t.reverse, ?_⟩
  have h2 : l = (t ++ l.reverse.dropWhile pySpace).reverse := by
    rw [ht, List.reverse_reverse]
  conv_lhs => rw [h2]
  rw [List.reverse_append]
  rfl

theorem dropWhile_head_false (p : Char → Bool) (l : List Char) (c : Char)
    (r : List Char) (h : l.dropWhile p = c :: r) : p c = false := by
  induction l with
  | nil => simp at h
  | cons a as ih =>
    by_cases ha : p a
    · rw [List.dropWhile_cons_of_pos ha] at h
      exact ih h
    · rw [List.dropWhile_cons_of_neg ha] at h
      obtain ⟨h1, _⟩ := List.cons.injEq .. ▸ h
      rw [← h1]
      exact Bool.not_eq_true _ ▸ ha

theorem isSub_rstrip (p l : List Char) (c0 : Char) (p' : List Char)
    (hp : p.reverse = c0 :: p') (hc0 : pySpace c0 = false)
    (h : isSub p l = true) : isSub p (rstrip l) = true := by
  have h1 : isSub p.reverse l.reverse = true := isSub_reverse p l h
  have h2 : isSub p.reverse (lstrip l.reverse) = true :=
    isSub_lstrip p.reverse l.reverse c0 p' hp hc0 h1
  have h3 := isSub_reverse p.reverse (lstrip l.reverse) h2
  rw [List.reverse_reverse] at h3
  exact h3

theorem isSub_pstrip (p l : List Char) (c0 : Char) (p' : List Char)
    (hp : p = c0 :: p') (hc0 : pySpace c0 = false)
    (c1 : Char) (p'' : List Char) (hq : p.reverse = c1 :: p'')
    (hc1 : pySpace c1 = false) (h : isSub p l = true) :
    isSub p (pstrip l) = true :=
  isSub_rstrip p (lstrip l) c1 p'' hq hc1
    (isSub_lstrip p l c0 p' hp hc0 h)

theorem pySpace_lowerChar (c : Char) : pySpace (lowerChar c) = pySpace c := by
  unfold lowerChar
  split <;> rfl

theorem dropWhile_map_lower (l : List Char) :
    (l.map lowerChar).dropWhile pySpace = (l.dropWhile pySpace).map lowerChar := by
  induction l with
  | nil => rfl
  | cons a as ih =>
    by_cases ha : pySpace a
    · have ha2 : pySpace (lowerChar a) = true := by rw [pySpace_lowerChar]; exact ha
      rw [List.map_cons, List.dropWhile_cons_of_pos ha2, List.dropWhile_cons_of_pos ha]
      exact ih
    · have ha2 : ¬ pySpace (lowerChar a) = true := by rw [pySpace_lowerChar]; exact ha
      rw [List.map_cons, List.dropWhile_cons_of_neg ha2, List.dropWhile_cons_of_neg ha]
      rfl

theorem pstrip_lowerL (l : List Char) : pstrip (lowerL l) = lowerL (pstrip l) := by
  unfold pstrip rstrip lstrip lowerL
  rw [dropWhile_map_lower, ← List.map_reverse, dropWhile_map_lower, ← List.map_reverse]

theorem splitWSAux_ne_nil (l acc : List Char) (hacc : acc ≠ []) :
    splitWSAux acc l ≠ [] := by
  induction l generalizing acc with
  | nil =>
    rw [splitWSAux]
    rw [if_neg (by simpa [List.isEmpty_iff] using hacc)]
    simp
  | cons c rest ih =>
    rw [splitWSAux]
    by_cases hc : pySpace c
    · rw [if_pos hc, if_neg (by simpa [List.isEmpty_iff] using hacc)]
      simp
    · rw [if_neg hc]
      exact ih (c :: acc) (by simp)

theorem splitWS_cons_ne_nil (c : Char) (rest : List Char)
    (hc : pySpace c = false) : splitWS (c :: rest) ≠ [] := by
  rw [splitWS, splitWSAux, if_neg (by simp [hc])]
  exact splitWSAux_ne_nil rest [c] (by simp)

theorem normText_ne_nil (u : List Char) (h : pstrip u ≠ []) :
    normText u ≠ [] := by
  rw [normText, pstrip_lowerL]
  simpa [lowerL] using h

theorem pstrip_head_nonspace (l : List Char) (c : Char) (rest : List Char)
    (h : pstrip l = c :: rest) : pySpace c = false := by
  obtain ⟨t, ht⟩ := rstrip_prefix (lstrip l)
  rw [pstrip] at h
  rw [h] at ht
  exact dropWhile_head_false pySpace l c (rest ++ t) (by rw [← lstrip, ht]; simp)

theorem splitWS_normText_ne_nil (u : List Char) (h : pstrip u ≠ []) :
    splitWS (normText u) ≠ [] := by
  have h1 : normText u ≠ [] := normText_ne_nil u h
  cases hn : normText u with
  | nil => exact absurd hn h1
  | cons c rest =>
    have hc : pySpace c = false := pstrip_head_nonspace (lowerL u) c rest hn
    exact splitWS_cons_ne_nil c rest hc

/-- Totality of get_response: a reply is produced for every input, in
particular the fallback branch always finds a first token. -/
theorem gr_total (g : Nat) (ts ds u : List Char) :
    ∃ r, get_response g ts ds u = some r := by
  rw [get_response]
  by_cases he : pstrip u = []
  · rw [if_pos he]
    exact ⟨didntCatchMsg, rfl⟩
  · rw [if_neg he]
    cases hc : classify u
    all_goals first
      | exact ⟨_, rfl⟩
      | (cases hs : splitWS (normText u) with
          | nil => exact absurd hs (splitWS_normText_ne_nil u he)
          | cons k ks => exact ⟨pick g (fallbackList k), rfl⟩)
/-- If classify selects Time, the Time branch condition held: the
normalized utterance contains "time" and does not contain "sometimes". -/
theorem classify_time_cond (u : List Char) (h : classify u = .time) :
    (isSub (toL "time") (normText u) && !(isSub (toL "sometimes") (normText u))) = true := by
  unfold classify at h
  by_cases c1 : anySub ["hello", "hi", "hey", "greetings", "sup"] (normText u) = true
  · rw [if_pos c1] at h
    cases h
  rw [if_neg c1] at h
  by_cases c2 : anySub ["who are you", "your name", "what are you", "what is your name"] (normText u) = true
  · rw [if_pos c2] at h
    cases h
  rw [if_neg c2] at h
  by_cases c3 : (isSub (toL "time") (normText u) && !(isSub (toL "sometimes") (normText u))) = true
  · exact c3
  rw [if_neg c3] at h
  by_cases c4 : anySub ["date", "today", "what day"] (normText u) = true
  · rw [if_pos c4] at h
    cases h
  rw [if_neg c4] at h
  by_cases c5 : (isSub (toL "how are you") (normText u) || isSub (toL "how do you feel") (normText u)) = true
  · rw [if_pos c5] at h
    cases h
  rw [if_neg c5] at h
  by_cases c6 : (isSub (toL "weather") (normText u) || isSub (toL "temperature") (normText u)) = true
  · rw [if_pos c6] at h
    cases h
  rw [if_neg c6] at h
  by_cases c7 : (isSub (toL "joke") (normText u) || isSub (toL "funny") (normText u) || isSub (toL "make me laugh") (normText u)) = true
  · rw [if_pos c7] at h
    cases h
  rw [if_neg c7] at h
  by_cases c8 : (isSub (toL "help") (normText u) || isSub (toL "what can you do") (normText u) || isSub (toL "capabilities") (normText u)) = true
  · rw [if_pos c8] at h
    cases h
  rw [if_neg c8] at h
  by_cases c9 : anySub ["thank", "thanks", "thankyou", "appreciate"] (normText u) = true
  · rw [if_pos c9] at h
    cases h
  rw [if_neg c9] at h
  by_cases c10 : anySub ["bye", "goodbye", "quit", "exit", "see you", "farewell"] (normText u) = true
  · rw [if_pos c10] at h
    cases h
  rw [if_neg c10] at h
  by_cases c11 : (isSub (toL "meaning of life") (normText u) || (isSub (toL "life") (normText u) && isSub (toL "meaning") (normText u))) = true
  · rw [if_pos c11] at h
    cases h
  rw [if_neg c11] at h
  by_cases c12 : anySub ["smart", "intelligent", "clever", "awesome", "great", "amazing"] (normText u) = true
  · rw [if_pos c12] at h
    cases h
  rw [if_neg c12] at h
  by_cases c13 : listStartsWith (toL "what") (normText u) = true
  · rw [if_pos c13] at h
    cases h
  rw [if_neg c13] at h
  by_cases c14 : listStartsWith (toL "how") (normText u) = true
  · rw [if_pos c14] at h
    cases h
  rw [if_neg c14] at h
  by_cases c15 : listStartsWith (toL "why") (normText u) = true
  · rw [if_pos c15] at h
    cases h
  rw [if_neg c15] at h
  by_cases c16 : listStartsWith (toL "when") (normText u) = true
  · rw [if_pos c16] at h
    cases h
  rw [if_neg c16] at h
  by_cases c17 : listStartsWith (toL "where") (normText u) = true
  · rw [if_pos c17] at h
    cases h
  rw [if_neg c17] at h
  by_cases c18 : listStartsWith (toL "who") (normText u) = true
  · rw [if_pos c18] at h
    cases h
  rw [if_neg c18] at h
  by_cases c19 : listEndsWith (toL "?") (normText u) = true
  · rw [if_pos c19] at h
    cases h
  rw [if_neg c19] at h
  cases h

/-- A "sometimes" occurrence survives lowercasing and stripping, because
its characters are lowercase and none is whitespace. -/
theorem isSub_sometimes_normText (u : List Char)
    (h : isSub (toL "sometimes") u = true) :
    isSub (toL "sometimes") (normText u) = true := by
  have h1 : isSub (toL "sometimes") (lowerL u) = true := by
    have h2 := isSub_map lowerChar (toL "sometimes") u h
    rw [show (toL "sometimes").map lowerChar = toL "sometimes" from by decide] at h2
    exact h2
  exact isSub_pstrip (toL "sometimes") (lowerL u) 's' (toL "ometimes")
    (by decide) (by decide) 's' (toL "emitemos") (by decide) (by decide) h1

/-! ## Concrete objects used by witnesses and counterexamples -/

/-- A sample CallSid. -/
def cSid : List Char := toL "CA123"

/-- A call_conversations state holding one registered call with an empty
turn list, as left by the voice webhook. -/
def demoStore : CallStore := fun c => if c = cSid then some [] else none

/-- A sample recorded exchange. -/
def demoTurn : Turn := (toL "hi there", toL "ok")

/-! ## Claim theorems -/

/-- Claim C1: for every utterance that is empty or consists only of
whitespace, get_response returns exactly the fixed string
"I didn't catch that. Could you please repeat?", before any
classification; the source get_response consults no availability flag,
so the result does not depend on one. -/
theorem get_response_empty_fixed (g : Nat) (ts ds u : List Char)
    (h : pstrip u = []) :
    get_response g ts ds u = some didntCatchMsg := by
  unfold get_response
  rw [if_pos h]

theorem get_response_empty_fixed_check :
    pstrip (toL "   ") = []
    ∧ get_response 0 [] [] (toL "   ") = some didntCatchMsg :=
  ⟨by decide, get_response_empty_fixed 0 [] [] (toL "   ") (by decide)⟩

/-- Claim C5: get_response is total — for every random draw, clock
strings and input string it returns some reply and never raises; in
particular the first-token extraction of the fallback branch always
succeeds. -/
theorem get_response_total (g : Nat) (ts ds u : List Char) :
    (get_response g ts ds u).isSome = true := by
  obtain ⟨r, hr⟩ := gr_total g ts ds u
  rw [hr]
  rfl

/-- Claim C9: "what time is it" classifies as Time; no utterance
containing the substring "sometimes" ever classifies as Time; the
guarded example utterance falls through to the what-question branch. -/
theorem classify_time_sometimes_guard :
    classify (toL "what time is it") = Intent.time
    ∧ (∀ u, isSub (toL "sometimes") u = true → classify u ≠ Intent.time)
    ∧ classify (qj ["what", "s your favorite time to reminisce, sometimes I wonder"])
        = Intent.questionWhat := by
  refine ⟨by decide, ?_, by decide⟩
  intro u hs heq
  have hc := classify_time_cond u heq
  have hsn := isSub_sometimes_normText u hs
  rw [hsn] at hc
  simp at hc

theorem classify_time_sometimes_guard_check :
    isSub (toL "sometimes") (toL "sometimes i wonder") = true
    ∧ classify (toL "sometimes i wonder") ≠ Intent.time :=
  ⟨by decide, classify_time_sometimes_guard.2.1 (toL "sometimes i wonder") (by decide)⟩

/-- Claim C7 (code bug in the source): the three speech_recognition
handlers of listen return None, but the generic exception handler
executes the broken `logger.erro` statement, so any other failure in the
try block raises an AttributeError out of listen instead of returning
None as the docstring promises. -/
theorem listen_generic_handler_raises :
    (∀ m, AgentPy.listen (.otherFailure m)
        = .error (.attributeError (toL "Logger object has no attribute erro")))
    ∧ AgentPy.listen .waitTimeout = .ok none
    ∧ AgentPy.listen .unknownValue = .ok none
    ∧ (∀ m, AgentPy.listen (.requestFailure m) = .ok none) :=
  ⟨fun _ => rfl, rfl, rfl, fun _ => rfl⟩

/-- Claim C6 counterexample: a whitespace-only text sent to the chat
endpoints is answered with HTTPException 400, a hard error surfaced to
the caller, not with the canned reply. -/
theorem empty_text_http_error_cex :
    chat_endpoint 0 [] [] (toL " ") = .error ⟨400, emptyDetail⟩
    ∧ process_input 0 [] [] (toL " ") = .error ⟨400, emptyDetail⟩ :=
  ⟨rfl, rfl⟩

/-- Claim C6 amended: the chat-processing web endpoints reject empty or
whitespace-only text with HTTP 400 "Text cannot be empty"; the canned
reply for empty input exists only inside get_response itself, which the
telephony gather path reaches directly. -/
theorem empty_text_rejected_400 (g : Nat) (ts ds text : List Char)
    (h : pstrip text = []) :
    chat_endpoint g ts ds text = .error ⟨400, emptyDetail⟩
    ∧ process_input g ts ds text = .error ⟨400, emptyDetail⟩
    ∧ get_response g ts ds text = some didntCatchMsg := by
  refine ⟨?_, ?_, ?_⟩
  · unfold chat_endpoint
    rw [if_pos h]
  · unfold process_input
    rw [if_pos h]
  · unfold get_response
    rw [if_pos h]

theorem empty_text_rejected_400_check :
    pstrip (toL "  ") = []
    ∧ (chat_endpoint 5 [] [] (toL "  ") = .error ⟨400, emptyDetail⟩
      ∧ process_input 5 [] [] (toL "  ") = .error ⟨400, emptyDetail⟩
      ∧ get_response 5 [] [] (toL "  ") = some didntCatchMsg) :=
  ⟨by decide, empty_text_rejected_400 5 [] [] (toL "  ") (by decide)⟩

/-- Claim C2 counterexample: eleven appends to a registered call leave
eleven entries, not ten — the gather webhook enforces no cap. -/
theorem append_cap_counterexample :
    (((List.replicate 11 demoTurn).foldl (fun s t => storeAppend s cSid t)
        demoStore) cSid).map List.length = some 11
    ∧ (((List.replicate 11 demoTurn).foldl (fun s t => storeAppend s cSid t)
        demoStore) cSid).map List.length ≠ some 10 :=
  ⟨by decide, by decide⟩

/-- Claim C2 amended: appends to a registered per-call history are
unbounded — after any sequence of appends the list holds its previous
contents followed by every appended turn in arrival order, with no
eviction. -/
theorem append_unbounded_retention (store : CallStore) (sid : List Char)
    (l ts : List Turn) (h : store sid = some l) :
    (ts.foldl (fun s t => storeAppend s sid t) store) sid = some (l ++ ts) := by
  induction ts generalizing store l with
  | nil => simpa using h
  | cons t rest ih =>
    rw [List.foldl_cons]
    have h2 : (storeAppend store sid t) sid = some (l ++ [t]) := by
      unfold storeAppend
      rw [h]
      simp
    have h3 := ih (storeAppend store sid t) (l ++ [t]) h2
    rw [h3]
    simp

theorem append_unbounded_retention_check :
    demoStore cSid = some ([] : List Turn)
    ∧ ((List.replicate 11 demoTurn).foldl (fun s t => storeAppend s cSid t)
        demoStore) cSid = some ([] ++ List.replicate 11 demoTurn) :=
  ⟨rfl, append_unbounded_retention demoStore cSid [] (List.replicate 11 demoTurn) rfl⟩

/-- Claim C3: a gathered utterance matching the termination keywords
while input is awaited yields the farewell say followed by hangup, and
from that terminal body no later state of the call can await input
again: the session is Ended and never re-enters Gathering. -/
theorem gather_terminating_ends_call (r : List Instr) (g : Nat)
    (ts ds text : List Char) (hg : awaitingGather r = true)
    (ht : terminatesB text = true) :
    stepResp r (.gathered g ts ds text) = some [Instr.say thankYouMsg, Instr.hangup]
    ∧ endsCall [Instr.say thankYouMsg, Instr.hangup] = true
    ∧ (∀ es rr, runCall [Instr.say thankYouMsg, Instr.hangup] es = some rr →
        awaitingGather rr = false) := by
  refine ⟨?_, by decide, ?_⟩
  · obtain ⟨ai, hai⟩ := gr_total g ts ds text
    simp only [stepResp]
    rw [if_pos hg, hai]
    simp only [Option.map_some']
    unfold gatherInstrs
    rw [if_pos ht]
  · intro es rr h
    cases es with
    | nil =>
      simp only [runCall] at h
      injection h with h2
      rw [← h2]
      decide
    | cons e es2 =>
      exfalso
      have hstep : stepResp [Instr.say thankYouMsg, Instr.hangup] e = none := by
        cases e with
        | gathered g2 ts2 ds2 t2 =>
          simp only [stepResp]
          rw [if_neg (by decide)]
        | silence =>
          simp only [stepResp]
          rw [if_neg (by decide)]
      simp only [runCall, hstep] at h
      exact Option.noConfusion h

theorem gather_terminating_ends_call_check :
    awaitingGather voiceResponse = true
    ∧ terminatesB (toL "goodbye") = true
    ∧ stepResp voiceResponse (Ev.gathered 0 [] [] (toL "goodbye"))
        = some [Instr.say thankYouMsg, Instr.hangup]
    ∧ awaitingGather [Instr.say thankYouMsg, Instr.hangup] = false := by
  have h := gather_terminating_ends_call voiceResponse 0 [] [] (toL "goodbye")
    (by decide) (by decide)
  exact ⟨by decide, by decide, h.1, h.2.2 [] _ rfl⟩

/-- Claim C4 counterexample: for the concrete non-terminating utterance
"tell me more", the no-input continuation of the gather response is the
voice webhook body, whose first instruction is the greeting say — so the
silence path does re-enter the greeting step, against the claim. -/
theorem silence_regreet_cex :
    terminatesB (toL "tell me more") = false
    ∧ stepResp (gatherInstrs (toL "ok") (toL "tell me more")) Ev.silence
        = some voiceResponse
    ∧ List.head? voiceResponse = some (Instr.say greetMsg)
    ∧ greetMsg = toL "Hello! Welcome to XCER AI Agent. How can I help you today?" :=
  ⟨by decide, by decide, by decide, rfl⟩

/-- Claim C4 amended: the non-terminating gather response speaks the
reply and requests more input, but its no-input continuation, after the
re-prompt, redirects to the voice webhook — which emits the greeting
again and resets the per-call turn list — rather than looping back to
the gather step of the same session. -/
theorem silence_redirects_to_greeting (ai text : List Char)
    (h : terminatesB text = false) :
    gatherInstrs ai text
      = [Instr.say ai, Instr.gatherInput gatherUrl, Instr.say anythingElseMsg,
          Instr.redirect voiceUrl]
    ∧ stepResp (gatherInstrs ai text) Ev.silence = some voiceResponse
    ∧ List.head? voiceResponse = some (Instr.say greetMsg)
    ∧ (∀ store sid, (twilio_voice_webhook store sid).1 sid = some []
        ∧ (twilio_voice_webhook store sid).2 = voiceResponse) := by
  have h1 : gatherInstrs ai text
      = [Instr.say ai, Instr.gatherInput gatherUrl, Instr.say anythingElseMsg,
          Instr.redirect voiceUrl] := by
    unfold gatherInstrs
    rw [if_neg (by simp [h])]
  refine ⟨h1, ?_, by decide, ?_⟩
  · rw [h1]
    simp only [stepResp]
    rw [if_pos (by simp [silenceRedirectsVoice, isRedirectVoiceInstr])]
  · intro store sid
    exact ⟨by simp [twilio_voice_webhook], rfl⟩

theorem silence_redirects_to_greeting_check :
    terminatesB (toL "tell me about cats") = false
    ∧ gatherInstrs (toL "sure") (toL "tell me about cats")
        = [Instr.say (toL "sure"), Instr.gatherInput gatherUrl,
            Instr.say anythingElseMsg, Instr.redirect voiceUrl]
    ∧ stepResp (gatherInstrs (toL "sure") (toL "tell me about cats")) Ev.silence
        = some voiceResponse
    ∧ List.head? voiceResponse = some (Instr.say greetMsg)
    ∧ (twilio_voice_webhook demoStore cSid).1 cSid = some []
    ∧ (twilio_voice_webhook demoStore cSid).2 = voiceResponse := by
  have h := silence_redirects_to_greeting (toL "sure") (toL "tell me about cats")
    (by decide)
  exact ⟨by decide, h.1, h.2.1, h.2.2.1, (h.2.2.2 demoStore cSid).1,
    (h.2.2.2 demoStore cSid).2⟩

/-- Claim C8 counterexample: on the terminating utterance "goodbye" the
turn list of the registered call is not left unchanged — the (user,
agent) pair is appended before the termination check. -/
theorem terminating_turn_recorded_cex :
    terminatesB (toL "goodbye") = true
    ∧ demoStore cSid = some []
    ∧ (twilio_gather_webhook 0 [] [] demoStore cSid (toL "goodbye")).map
        (fun p => p.1 cSid) = some (some [(toL "goodbye", goodbyeMsg)])
    ∧ (some (some [(toL "goodbye", goodbyeMsg)]) : Option (Option (List Turn)))
        ≠ some (some []) :=
  ⟨by decide, rfl, by decide, by decide⟩

/-- Claim C8 amended: the gather webhook records the (user, agent) pair
into the turn list of every registered callId on every gathered
utterance — terminating or not — because the append precedes the
termination check. -/
theorem gather_always_records_turn (g : Nat) (ts ds : List Char)
    (store : CallStore) (sid speech : List Char) (l : List Turn)
    (h : store sid = some l) :
    ∃ ai, get_response g ts ds speech = some ai
      ∧ twilio_gather_webhook g ts ds store sid speech
          = some (storeAppend store sid (speech, ai), gatherInstrs ai speech)
      ∧ (storeAppend store sid (speech, ai)) sid = some (l ++ [(speech, ai)]) := by
  obtain ⟨ai, hai⟩ := gr_total g ts ds speech
  refine ⟨ai, hai, ?_, ?_⟩
  · unfold twilio_gather_webhook
    rw [hai]
    rfl
  · unfold storeAppend
    rw [h]
    simp

theorem gather_always_records_turn_check :
    demoStore cSid = some ([] : List Turn)
    ∧ ∃ ai, get_response 3 [] [] (toL "thanks a lot") = some ai
      ∧ twilio_gather_webhook 3 [] [] demoStore cSid (toL "thanks a lot")
          = some (storeAppend demoStore cSid (toL "thanks a lot", ai),
              gatherInstrs ai (toL "thanks a lot"))
      ∧ (storeAppend demoStore cSid (toL "thanks a lot", ai)) cSid
          = some ([] ++ [(toL "thanks a lot", ai)]) :=
  ⟨rfl, gather_always_records_turn 3 [] [] demoStore cSid (toL "thanks a lot") [] rfl⟩

/-- Claim C10 counterexample: "maybe" does not contain "bye" as a
substring (its letters run m-a-y-b-e, containing "ybe"), so the gather
webhook does not terminate the call on it, against the claim's example. -/
theorem maybe_not_terminated_cex :
    isSub (toL "bye") (lowerL (toL "maybe")) = false
    ∧ terminatesB (toL "maybe") = false
    ∧ endsCall (gatherInstrs (toL "ok") (toL "maybe")) = false :=
  ⟨by decide, by decide, by decide⟩

/-- Claim C10 amended: the farewell-plus-hangup branch is taken exactly
when the lowercased transcript contains one of the five keywords as a
substring anywhere, so a non-farewell utterance embedding a keyword,
such as "the exit is on the left", terminates the call; "maybe",
however, does not contain "bye" and does not. -/
theorem hangup_iff_keyword_substring :
    (∀ ai text, endsCall (gatherInstrs ai text) = true
        ↔ (termKeywords.any fun w => isSub (toL w) (lowerL text)) = true)
    ∧ isSub (toL "exit") (lowerL (toL "the exit is on the left")) = true
    ∧ endsCall (gatherInstrs (toL "ok") (toL "the exit is on the left")) = true := by
  refine ⟨?_, by decide, by decide⟩
  intro ai text
  unfold gatherInstrs
  by_cases h : terminatesB text = true
  · rw [if_pos h]
    constructor
    · intro _
      exact h
    · intro _
      decide
  · rw [if_neg h]
    constructor
    · intro hc
      simp [endsCall, isHangupInstr] at hc
    · intro hc
      exact absurd hc h
